import Mathlib

/-!
Verification development for the qmlglsink example application
(src/ScopeGuard.hpp and src/main.cpp).

The C++ code is shallowly embedded: each class becomes a Lean structure,
member functions become state-passing functions, and the external
libraries (GStreamer factories, the OS signal API, the Qt runtime) become
explicit environment/oracle parameters recording which external calls
succeed.  Side effects are made visible as explicit traces of events.
-/

/-! ## Scoped-resource guard (src/ScopeGuard.hpp, detail::ScopeGuardImpl)

The guard wraps a zero-argument action.  We model the action as a state
transformer `σ → σ × Option ε`: it transforms the ambient state and may
additionally raise a failure `ε` (a C++ exception).  The destructor is
modelled as a function from the guard and the ambient state to the
resulting state paired with the failure, if any, that propagates out of
the destruction point. -/

structure ScopeGuardImpl (σ ε : Type) where
  m_func : σ → σ × Option ε
  m_dismissed : Bool

/-- `makeScopeGuard` (ScopeGuard.hpp line 70): constructs a guard from an
action; `m_dismissed` starts out `false`. -/
def makeScopeGuard {σ ε : Type} (f : σ → σ × Option ε) : ScopeGuardImpl σ ε :=
  { m_func := f, m_dismissed := false }

/-- `dismiss` (ScopeGuard.hpp line 51): sets `m_dismissed`. -/
def ScopeGuardImpl.dismiss {σ ε : Type} (g : ScopeGuardImpl σ ε) : ScopeGuardImpl σ ε :=
  { g with m_dismissed := true }

/-- The `try { m_func(); } catch (...) {}` block of the destructor
(ScopeGuard.hpp lines 32-38): the action's state change happens, and any
raised failure is caught and discarded. -/
def tryCatchDiscard {σ ε : Type} (body : σ → σ × Option ε) (s : σ) : σ × Option ε :=
  ((body s).1, none)

/-- `~ScopeGuardImpl` (ScopeGuard.hpp lines 22-41): if not dismissed, run
the action under try/catch; otherwise do nothing.  The second component
of the result is the failure that propagates out of the destructor. -/
def ScopeGuardImpl.destruct {σ ε : Type} (g : ScopeGuardImpl σ ε) (s : σ) : σ × Option ε :=
  if g.m_dismissed then (s, none)
  else tryCatchDiscard g.m_func s

/-- Move constructor (ScopeGuard.hpp lines 43-48): the target takes over
the action and dismissal state; the source is left dismissed. -/
def ScopeGuardImpl.moveConstruct {σ ε : Type} (other : ScopeGuardImpl σ ε) :
    ScopeGuardImpl σ ε × ScopeGuardImpl σ ε :=
  ({ m_func := other.m_func, m_dismissed := other.m_dismissed },
   { other with m_dismissed := true })

/-! ## GStreamer object model

`gst_element_factory_make` hands back an element with a single (floating)
reference owned by the caller.  Handing the element to a parent container
via an ownership-taking property (`"sink"` on glsinkbin, `"video-sink"` /
`"text-sink"` on playbin) transfers that reference to the parent; the
parent releases its children when it is itself released.
`gst_object_unref` drops a reference; dropping the last one deallocates
the element and cascades to its adopted children.  Unreferencing an
element that is no longer allocated is a double free; the heap records
that in `doubleFree`. -/

abbrev ElemId := Nat

structure GstHeap where
  next : ElemId
  rc : List (ElemId × Nat)
  children : List (ElemId × ElemId)
  doubleFree : Bool
deriving DecidableEq, Repr

def emptyHeap : GstHeap := { next := 0, rc := [], children := [], doubleFree := false }

def assocGet (l : List (ElemId × Nat)) (k : ElemId) : Option Nat :=
  match l with
  | [] => none
  | (k₁, v) :: rest => if k₁ = k then some v else assocGet rest k

def assocSet (l : List (ElemId × Nat)) (k : ElemId) (v : Nat) : List (ElemId × Nat) :=
  match l with
  | [] => [(k, v)]
  | (k₁, v₁) :: rest => if k₁ = k then (k, v) :: rest else (k₁, v₁) :: assocSet rest k v

def assocRemove (l : List (ElemId × Nat)) (k : ElemId) : List (ElemId × Nat) :=
  l.filter (fun p => p.1 ≠ k)

/-- `gst_element_factory_make`: the factory environment decides whether the
requested element exists; on success a fresh element with refcount 1 is
allocated. -/
def factoryMake (ok : Bool) (h : GstHeap) : Option ElemId × GstHeap :=
  if ok then
    (some h.next,
     { h with next := h.next + 1, rc := (h.next, 1) :: h.rc })
  else (none, h)

def childrenOf (h : GstHeap) (p : ElemId) : List ElemId :=
  (h.children.filter (fun pc => pc.1 = p)).map (fun pc => pc.2)

/-- Core of `gst_object_unref` with explicit fuel (the cascade depth is
bounded by the number of allocated elements).  Dropping the last
reference removes the element and releases every child it adopted. -/
def gstUnrefAux : Nat → ElemId → GstHeap → GstHeap
  | 0, _, h => h
  | fuel + 1, e, h =>
    match assocGet h.rc e with
    | none => { h with doubleFree := true }
    | some n =>
      if n ≤ 1 then
        let cs := childrenOf h e
        let h₁ := { h with rc := assocRemove h.rc e,
                           children := h.children.filter (fun pc => pc.1 ≠ e) }
        cs.foldl (fun acc c => gstUnrefAux fuel c acc) h₁
      else
        { h with rc := assocSet h.rc e (n - 1) }

/-- `gst_object_unref`.  One level of fuel is consumed per cascade
level, and each level removes an element first, so `rc.length + 1` fuel
always suffices. -/
def gstObjectUnref (e : ElemId) (h : GstHeap) : GstHeap :=
  gstUnrefAux (h.rc.length + 1) e h

/-- Ownership-transferring property assignment (`g_object_set` with
`"sink"` / `"video-sink"` / `"text-sink"`): the parent adopts the child,
taking over the caller's reference. -/
def gstAdopt (parent child : ElemId) (h : GstHeap) : GstHeap :=
  { h with children := (parent, child) :: h.children }

/-! ## Pipeline (src/main.cpp lines 149-357)

The `Pipeline` class members and the GObject properties the code sets are
carried in one state record.  The properties are per-instance: `setup`
creates exactly one playbin, glsinkbin, appsink and qmlglsink, so their
properties are stored flat.  Every externally visible GStreamer call the
controller issues is additionally recorded in a trace of `GstOp` events;
cascaded releases performed internally by the library are not controller
calls and do not appear in the trace. -/

inductive GstOp
  | factoryCall (factoryName : String) (result : Option ElemId)
  | setStateNull (e : ElemId)
  | setStatePlaying (e : ElemId)
  | adopt (parent child : ElemId)
  | setWidget (e : ElemId) (w : Option Nat)
  | unref (e : ElemId)
deriving DecidableEq, Repr

structure PipelineState where
  m_playbin : Option ElemId
  m_qmlglsink : Option ElemId
  m_qmlSubtitleItem : Option Nat
  heap : GstHeap
  uriProp : Option String
  flagsProp : Option Nat
  videoSinkProp : Option ElemId
  textSinkProp : Option ElemId
  glsinkbinSinkProp : Option ElemId
  widgetProp : Option Nat
  appsinkDrop : Option Bool
  appsinkMaxBuffers : Option Nat
  appsinkCallbacksSet : Bool

/-- A `Pipeline` as default-constructed (main.cpp lines 152-154 and the
member initializers at lines 354-356): all handles null. -/
def Pipeline.mkInit : PipelineState :=
  { m_playbin := none, m_qmlglsink := none, m_qmlSubtitleItem := none,
    heap := emptyHeap, uriProp := none, flagsProp := none,
    videoSinkProp := none, textSinkProp := none, glsinkbinSinkProp := none,
    widgetProp := none, appsinkDrop := none, appsinkMaxBuffers := none,
    appsinkCallbacksSet := false }

/-- Which `gst_element_factory_make` calls succeed (the external plugin
environment). -/
structure FactoryEnv where
  playbinOk : Bool
  glsinkbinOk : Bool
  appsinkOk : Bool
  qmlglsinkOk : Bool

/-- Action of the `pipelineGuard` scope guard (main.cpp lines 179-185):
if `m_playbin` is non-null, unref it and null it out. -/
def pipelineGuardAction (st : PipelineState) : PipelineState × List GstOp :=
  match st.m_playbin with
  | none => (st, [])
  | some pb =>
    ({ st with heap := gstObjectUnref pb st.heap, m_playbin := none }, [.unref pb])

/-- Action of the `elementUnrefGuard` scope guard (main.cpp lines
210-215): unref `glsinkbin` and `subtitleAppsink` when non-null. -/
def elementUnrefGuardAction (glsinkbin subtitleAppsink : Option ElemId)
    (st : PipelineState) : PipelineState × List GstOp :=
  let r₁ : PipelineState × List GstOp :=
    match glsinkbin with
    | none => (st, [])
    | some g => ({ st with heap := gstObjectUnref g st.heap }, [.unref g])
  match subtitleAppsink with
  | none => r₁
  | some a => ({ r₁.1 with heap := gstObjectUnref a r₁.1.heap }, r₁.2 ++ [.unref a])

/-- `Pipeline::setup` (main.cpp lines 176-301).  Local variables
`glsinkbin` / `subtitleAppsink` and the two scope guards are made
explicit; each `return false` path runs the guards that are alive and not
dismissed at that point, in reverse construction order (elementUnrefGuard
before pipelineGuard), exactly as the C++ scope exit does. -/
def Pipeline.setup (env : FactoryEnv) (inputUrl : String) (qmlSubtitleItem : Nat)
    (st : PipelineState) : Bool × PipelineState × List GstOp :=
  -- pipelineGuard constructed here (not dismissed yet)
  let st := { st with m_qmlSubtitleItem := some qmlSubtitleItem }
  -- m_playbin = gst_element_factory_make("playbin", nullptr);
  match factoryMake env.playbinOk st.heap with
  | (none, h) =>
    -- return false; pipelineGuard runs (m_playbin still null: no-op)
    let st := { st with heap := h }
    let (st, gops) := pipelineGuardAction st
    (false, st, [.factoryCall "playbin" none] ++ gops)
  | (some pb, h) =>
    let st := { st with m_playbin := some pb, heap := h }
    let ops₀ : List GstOp := [.factoryCall "playbin" (some pb)]
    -- elementUnrefGuard constructed here (glsinkbin, subtitleAppsink null)
    -- glsinkbin = gst_element_factory_make("glsinkbin", nullptr);
    match factoryMake env.glsinkbinOk st.heap with
    | (none, h) =>
      -- return false; elementUnrefGuard (both null: no-op), then pipelineGuard
      let st := { st with heap := h }
      let (st, eops) := elementUnrefGuardAction none none st
      let (st, gops) := pipelineGuardAction st
      (false, st, ops₀ ++ [.factoryCall "glsinkbin" none] ++ eops ++ gops)
    | (some gl, h) =>
      let st := { st with heap := h }
      let ops₁ := ops₀ ++ [.factoryCall "glsinkbin" (some gl)]
      -- subtitleAppsink = gst_element_factory_make("appsink", nullptr);
      match factoryMake env.appsinkOk st.heap with
      | (none, h) =>
        -- return false; elementUnrefGuard unrefs glsinkbin, then pipelineGuard
        let st := { st with heap := h }
        let (st, eops) := elementUnrefGuardAction (some gl) none st
        let (st, gops) := pipelineGuardAction st
        (false, st, ops₁ ++ [.factoryCall "appsink" none] ++ eops ++ gops)
      | (some app, h) =>
        let st := { st with heap := h }
        let ops₂ := ops₁ ++ [.factoryCall "appsink" (some app)]
        -- m_qmlglsink = gst_element_factory_make("qmlglsink", nullptr);
        match factoryMake env.qmlglsinkOk st.heap with
        | (none, h) =>
          -- return false; elementUnrefGuard unrefs glsinkbin and appsink,
          -- then pipelineGuard unrefs playbin
          let st := { st with heap := h }
          let (st, eops) := elementUnrefGuardAction (some gl) (some app) st
          let (st, gops) := pipelineGuardAction st
          (false, st, ops₂ ++ [.factoryCall "qmlglsink" none] ++ eops ++ gops)
        | (some qml, h) =>
          let st := { st with m_qmlglsink := some qml, heap := h }
          let ops₃ := ops₂ ++ [.factoryCall "qmlglsink" (some qml)]
          -- g_object_set(glsinkbin, "sink", m_qmlglsink, nullptr):
          -- glsinkbin takes ownership of the qmlglsink
          let st := { st with heap := gstAdopt gl qml st.heap,
                              glsinkbinSinkProp := some qml }
          let ops₄ := ops₃ ++ [.adopt gl qml]
          -- g_object_set(m_playbin, "uri", ..., "flags", 0x57,
          --   "video-sink", glsinkbin, "text-sink", subtitleAppsink, nullptr):
          -- playbin takes ownership of glsinkbin and subtitleAppsink
          let st := { st with uriProp := some inputUrl, flagsProp := some 0x57,
                              videoSinkProp := some gl, textSinkProp := some app,
                              heap := gstAdopt pb app (gstAdopt pb gl st.heap) }
          let ops₅ := ops₄ ++ [.adopt pb gl, .adopt pb app]
          -- elementUnrefGuard.dismiss();
          -- gst_app_sink_set_callbacks(...); drop = TRUE; max-buffers = 1
          let st := { st with appsinkCallbacksSet := true,
                              appsinkDrop := some true, appsinkMaxBuffers := some 1 }
          -- pipelineGuard.dismiss(); return true
          (true, st, ops₅)

/-- `Pipeline::~Pipeline` (main.cpp lines 156-173): nothing to do when
`m_playbin` is null; otherwise stop playback (NULL state), detach the Qt
widget from the qmlglsink when present, then unref the playbin (which
cascades to everything it owns). -/
def Pipeline.destruct (st : PipelineState) : PipelineState × List GstOp :=
  match st.m_playbin with
  | none => (st, [])
  | some pb =>
    match st.m_qmlglsink with
    | some qml =>
      let st := { st with widgetProp := none }
      ({ st with heap := gstObjectUnref pb st.heap, m_playbin := none },
       [.setStateNull pb, .setWidget qml none, .unref pb])
    | none =>
      ({ st with heap := gstObjectUnref pb st.heap, m_playbin := none },
       [.setStateNull pb, .unref pb])

/-- `Pipeline::start` (main.cpp lines 304-322).  The two `assert`s demand
a non-null `m_playbin` and `m_qmlglsink`; a violated assertion is
modelled as `none` (the program traps, no result).  Otherwise the QML
video item is attached as the qmlglsink's widget and the PLAYING state is
requested; `stateChangeOk` is the external library's verdict. -/
def Pipeline.start (stateChangeOk : Bool) (videoItem : Nat) (st : PipelineState) :
    Option (Bool × PipelineState × List GstOp) :=
  match st.m_playbin, st.m_qmlglsink with
  | some pb, some qml =>
    let st := { st with widgetProp := some videoItem }
    let ops : List GstOp := [.setWidget qml (some videoItem), .setStatePlaying pb]
    if stateChangeOk then some (true, st, ops)
    else some (false, st, ops)
  | _, _ => none

/-- Full lifecycle: default construction, `setup`, and (when setup
succeeded) destruction, with the concatenated controller trace. -/
def Pipeline.lifecycle (env : FactoryEnv) (inputUrl : String) (qmlSubtitleItem : Nat) :
    PipelineState × List GstOp :=
  let (ok, st, ops) := Pipeline.setup env inputUrl qmlSubtitleItem Pipeline.mkInit
  if ok then
    let (st₂, ops₂) := Pipeline.destruct st
    (st₂, ops ++ ops₂)
  else (st, ops)

/-- Children adopted by a parent somewhere in a trace. -/
def adoptedChildren (ops : List GstOp) : List ElemId :=
  ops.filterMap (fun op => match op with | .adopt _ c => some c | _ => none)

/-- Elements directly unref'd by the controller somewhere in a trace. -/
def controllerUnrefs (ops : List GstOp) : List ElemId :=
  ops.filterMap (fun op => match op with | .unref e => some e | _ => none)

/-! ## Signal bridge (src/main.cpp lines 25-144)

The OS signal-disposition table is a function from signal numbers to
`Sigaction` records; `sigaction` queries and installs entries in it.  The
bridge's own handler function (`sigHandler`, main.cpp lines 32-39) is the
distinguished `Handler.bridge` value.  The environment says whether
`pipe` succeeds and, per signal, whether the `sigaction` query or install
call fails; the restoring `sigaction` call in the destructor is passed a
valid signal number and a previously returned action, which cannot fail,
and is modelled as succeeding. -/

inductive Handler
  | dfl
  | ign
  | bridge
  | other (n : Nat)
deriving DecidableEq, Repr

/-- The fields of `struct sigaction` the code reads or writes; masks are
abstracted to a bitset value so that "bit-for-bit equal" is plain
equality of records. -/
structure Sigaction where
  sa_handler : Handler
  sa_mask : Nat
  sa_flags : Nat
deriving DecidableEq, Repr

def SA_RESTART : Nat := 0x10000000

/-- The mask produced by `sigfillset`. -/
def sigFullMask : Nat := 0xffffffffffffffff

/-- The action installed by `Sighandler::setup` (main.cpp lines 119-124):
`sigHandler` as handler, all signals blocked, SA_RESTART set. -/
def bridgeSigaction : Sigaction :=
  { sa_handler := Handler.bridge, sa_mask := sigFullMask, sa_flags := SA_RESTART }

def SIGHUP : Int := 1
def SIGINT : Int := 2
def SIGQUIT : Int := 3
def SIGTERM : Int := 15

/-- main.cpp line 41. -/
def SignalsToHandle : List Int := [SIGINT, SIGTERM, SIGQUIT, SIGHUP]

/-- `sigHandler` (main.cpp lines 32-39), the raw OS signal handler: if
the global `signalFd` is not the `-1` sentinel, write one byte to it;
otherwise do nothing.  The result is the list of file descriptors
written to (at most one). -/
def sigHandler (signalFd : Int) : List Int :=
  if signalFd ≠ -1 then [signalFd] else []

/-- External outcomes for `Sighandler::setup`: whether `pipe` succeeds
(and its descriptors), and per signal whether the `sigaction` query or
install fails. -/
structure SigEnv where
  pipeOk : Bool
  readFd : Int
  writeFd : Int
  queryFail : Int → Bool
  installFail : Int → Bool

/-- The `Sighandler` members (main.cpp lines 140-143) together with the
global `signalFd` (line 30) and the OS disposition table. -/
structure SigState where
  dispositions : Int → Sigaction
  signalFd : Int
  m_pipeFds : Int × Int
  m_notifier : Bool
  m_oldSigactions : List (Int × Sigaction)

/-- Program start: `signalFd = -1` (main.cpp line 30), members at their
initializers, dispositions as the OS provides them. -/
def Sighandler.mkInit (d : Int → Sigaction) : SigState :=
  { dispositions := d, signalFd := -1, m_pipeFds := (-1, -1),
    m_notifier := false, m_oldSigactions := [] }

/-- `std::map` insertion (`m_oldSigactions[signal] = ...`): the map keeps
its entries sorted by key. -/
def mapInsert (k : Int) (v : Sigaction) : List (Int × Sigaction) → List (Int × Sigaction)
  | [] => [(k, v)]
  | (k₁, v₁) :: rest =>
    if k < k₁ then (k, v) :: (k₁, v₁) :: rest
    else if k = k₁ then (k, v) :: rest
    else (k₁, v₁) :: mapInsert k v rest

/-- The `for (int signal : SignalsToHandle)` loop of `Sighandler::setup`
(main.cpp lines 107-134).  For each signal: query the old disposition
(failure aborts with `false`); if its handler is not `SIG_IGN`, install
`bridgeSigaction` (failure aborts with `false`); in either case record
the old disposition in `m_oldSigactions`.  The third component collects
the `sigaction` install calls actually performed (the overrides). -/
def setupLoop (env : SigEnv) : List Int → SigState → List (Int × Sigaction) →
    Bool × SigState × List (Int × Sigaction)
  | [], st, w => (true, st, w)
  | s :: rest, st, w =>
    if env.queryFail s then (false, st, w)
    else
      let oldSigaction := st.dispositions s
      if oldSigaction.sa_handler ≠ Handler.ign then
        if env.installFail s then (false, st, w)
        else
          setupLoop env rest
            { st with
                dispositions := Function.update st.dispositions s bridgeSigaction,
                m_oldSigactions := mapInsert s oldSigaction st.m_oldSigactions }
            (w ++ [(s, bridgeSigaction)])
      else
        setupLoop env rest
          { st with m_oldSigactions := mapInsert s oldSigaction st.m_oldSigactions } w

/-- `Sighandler::setup` (main.cpp lines 79-137): create the pipe (failure
aborts), publish the write end in the global `signalFd`, create the
socket notifier, then process the four signals. -/
def Sighandler.setup (env : SigEnv) (st : SigState) :
    Bool × SigState × List (Int × Sigaction) :=
  if env.pipeOk then
    let st := { st with m_pipeFds := (env.readFd, env.writeFd) }
    let st := { st with signalFd := env.writeFd }
    let st := { st with m_notifier := true }
    setupLoop env SignalsToHandle st []
  else (false, st, [])

/-- The restore loop of `~Sighandler` (main.cpp lines 64-69): write every
recorded old disposition back, iterating the map in ascending key order.
The second component collects the restoring `sigaction` calls. -/
def restoreLoop : List (Int × Sigaction) → (Int → Sigaction) → List (Int × Sigaction) →
    (Int → Sigaction) × List (Int × Sigaction)
  | [], d, w => (d, w)
  | (s, old) :: rest, d, w => restoreLoop rest (Function.update d s old) (w ++ [(s, old)])

/-- `~Sighandler` (main.cpp lines 62-77): restore the recorded
dispositions, delete the notifier, close both pipe ends, and reset the
global `signalFd` to the `-1` sentinel. -/
def Sighandler.destruct (st : SigState) : SigState × List (Int × Sigaction) :=
  let r := restoreLoop st.m_oldSigactions st.dispositions []
  ({ st with dispositions := r.1, m_notifier := false, signalFd := -1 }, r.2)

/-! ## Startup sequencer (`main`, src/main.cpp lines 389-560)

`main` is embedded as a function from the outcomes of its external calls
to an exit code, the normalized input URL (the value of the `inputUrl`
variable after the validation block at lines 452-468), and a trace of
events.  `gst_uri_is_valid` and `gst_filename_to_uri` belong to the
external media library and enter as oracles.  The scheduled render job
(`SetPlayingJob::run`, which calls `Pipeline::start` once the scenegraph
is up) runs inside the event loop and is modelled separately by
`Pipeline.start`. -/

inductive MainEvent
  | gstInitFailed
  | parseFailed
  | helpShown
  | missingInput
  | uriAccepted (url : String)
  | uriConverted (url : String)
  | uriRejected
  | dummySinkMade
  | dummySinkFailed
  | qmlLoadFailed
  | qmlLoaded
  | pipelineSetupFailed
  | sigSetupFailed
  | windowShown (fullscreen : Bool)
  | videoItemMissing
  | renderJobScheduled
  | eventLoopEntered
  | pipelineOp (op : GstOp)
  | qmlEngineDestroyed
  | sighandlerDestroyed
  | gstDeinitCalled
deriving DecidableEq, Repr

structure MainEnv where
  gstInitOk : Bool
  parseOk : Bool
  helpRequested : Bool
  inputSet : Bool
  input : String
  fullscreen : Bool
  gstUriIsValid : String → Bool
  gstFilenameToUri : String → Option String
  factory : FactoryEnv
  qmlLoadOk : Bool
  windowPtr : Nat
  videoItemFound : Bool
  videoItemPtr : Nat
  sigEnv : SigEnv
  appExecCode : Int

structure MainResult where
  exitCode : Int
  validatedUrl : Option String
  trace : List MainEvent

/-- Events at the end of `main`'s scope, in reverse declaration order:
the `Pipeline` destructor runs first — before the QML engine (and with
it the window that owns the GPU surface) is destroyed — then the QML
engine, the `Sighandler`, and finally the GStreamer deinit scope guard. -/
def scopeExitTrace (pst : PipelineState) : List MainEvent :=
  (Pipeline.destruct pst).2.map MainEvent.pipelineOp ++
    [MainEvent.qmlEngineDestroyed, MainEvent.sighandlerDestroyed,
     MainEvent.gstDeinitCalled]

/-- `main` from the dummy-qmlglsink step on (main.cpp lines 475-559),
after the input has been validated/normalized to `inputUrl`. -/
def mainAfterUri (env : MainEnv) (d : Int → Sigaction) (inputUrl : String)
    (uriEvent : MainEvent) : MainResult :=
  -- dummy qmlglsink make + unref, forcing QML type registration (480-487)
  if !env.factory.qmlglsinkOk then
    { exitCode := -1, validatedUrl := some inputUrl,
      trace := [uriEvent, MainEvent.dummySinkFailed,
                MainEvent.sighandlerDestroyed, MainEvent.gstDeinitCalled] }
  -- QML engine load (490-496)
  else if !env.qmlLoadOk then
    { exitCode := -1, validatedUrl := some inputUrl,
      trace := [uriEvent, MainEvent.dummySinkMade, MainEvent.qmlLoadFailed,
                MainEvent.qmlEngineDestroyed, MainEvent.sighandlerDestroyed,
                MainEvent.gstDeinitCalled] }
  else
    -- pipeline.setup(inputUrl, mainWindow) (504-506)
    let ps := Pipeline.setup env.factory inputUrl env.windowPtr Pipeline.mkInit
    if !ps.1 then
      { exitCode := -1, validatedUrl := some inputUrl,
        trace := [uriEvent, MainEvent.dummySinkMade, MainEvent.qmlLoaded]
                 ++ ps.2.2.map MainEvent.pipelineOp
                 ++ [MainEvent.pipelineSetupFailed] ++ scopeExitTrace ps.2.1 }
    else
      -- sighandler.setup(mainWindow) (510-511)
      let ss := Sighandler.setup env.sigEnv (Sighandler.mkInit d)
      if !ss.1 then
        { exitCode := -1, validatedUrl := some inputUrl,
          trace := [uriEvent, MainEvent.dummySinkMade, MainEvent.qmlLoaded]
                   ++ ps.2.2.map MainEvent.pipelineOp
                   ++ [MainEvent.sigSetupFailed] ++ scopeExitTrace ps.2.1 }
      -- show the window (514-517), find the video item (522-527)
      else if !env.videoItemFound then
        { exitCode := -1, validatedUrl := some inputUrl,
          trace := [uriEvent, MainEvent.dummySinkMade, MainEvent.qmlLoaded]
                   ++ ps.2.2.map MainEvent.pipelineOp
                   ++ [MainEvent.windowShown env.fullscreen,
                       MainEvent.videoItemMissing] ++ scopeExitTrace ps.2.1 }
      else
        -- scheduleRenderJob(new SetPlayingJob(...)) (552-555), app.exec() (559)
        { exitCode := env.appExecCode, validatedUrl := some inputUrl,
          trace := [uriEvent, MainEvent.dummySinkMade, MainEvent.qmlLoaded]
                   ++ ps.2.2.map MainEvent.pipelineOp
                   ++ [MainEvent.windowShown env.fullscreen,
                       MainEvent.renderJobScheduled, MainEvent.eventLoopEntered]
                   ++ scopeExitTrace ps.2.1 }

/-- `main` (main.cpp lines 389-560): gst_init_check, the deinit scope
guard, QGuiApplication, Sighandler, command-line handling (420-450), the
input validation block (452-468), then `mainAfterUri`. -/
def mainSeq (env : MainEnv) (d : Int → Sigaction) : MainResult :=
  if !env.gstInitOk then
    { exitCode := -1, validatedUrl := none, trace := [MainEvent.gstInitFailed] }
  else if !env.parseOk then
    { exitCode := -1, validatedUrl := none,
      trace := [MainEvent.parseFailed, MainEvent.helpShown,
                MainEvent.sighandlerDestroyed, MainEvent.gstDeinitCalled] }
  else if env.helpRequested then
    { exitCode := -1, validatedUrl := none,
      trace := [MainEvent.helpShown, MainEvent.sighandlerDestroyed,
                MainEvent.gstDeinitCalled] }
  else if !env.inputSet then
    { exitCode := -1, validatedUrl := none,
      trace := [MainEvent.missingInput, MainEvent.sighandlerDestroyed,
                MainEvent.gstDeinitCalled] }
  -- if (!gst_uri_is_valid(inputUrl)) { ... } (452-468)
  else if env.gstUriIsValid env.input then
    mainAfterUri env d env.input (MainEvent.uriAccepted env.input)
  else
    match env.gstFilenameToUri env.input with
    | some uri => mainAfterUri env d uri (MainEvent.uriConverted uri)
    | none =>
      { exitCode := -1, validatedUrl := none,
        trace := [MainEvent.uriRejected, MainEvent.sighandlerDestroyed,
                  MainEvent.gstDeinitCalled] }

/-- Whether the first character list is an initial segment of the
second. -/
def leadsWith : List Char → List Char → Bool
  | [], _ => true
  | _ :: _, [] => false
  | p :: ps, c :: cs => (p = c) && leadsWith ps cs

/-- Modelled from the spec: `gst_uri_is_valid` belongs to the external
media library and is not part of this repository; following the spec's
examples, a string carrying a URI scheme ("http://...", "file://...") is
a valid URI and a bare filesystem path is not.  Used only to instantiate
the validation oracle on the spec's concrete examples. -/
def exUriIsValid (s : String) : Bool :=
  leadsWith "http://".data s.data || leadsWith "https://".data s.data ||
    leadsWith "file://".data s.data

/-- Modelled from the spec: `gst_filename_to_uri` of the external media
library; an absolute filesystem path is convertible to the corresponding
"file://" URI, per the spec's example, and other strings are rejected
here to exercise the unconvertible case. -/
def exFilenameToUri (s : String) : Option String :=
  if leadsWith "/".data s.data then some ("file://" ++ s) else none

/-! ## Theorems -/

/-- C1: a guard constructed with a side-effecting action runs the action
exactly once at destruction when `dismiss` was never called (the
resulting state is exactly one application of the action); it never runs
the action when `dismiss` was called beforehand; `dismiss` is idempotent;
and no failure raised by the action ever propagates out of the
destruction point (the failure component of `destruct` is always `none`,
even when the action raises). -/
theorem scopeGuard_runs_once_dismiss_idempotent_no_propagation
    {σ ε : Type} (f : σ → σ × Option ε) (s : σ) (g : ScopeGuardImpl σ ε) (e : ε) :
    (((makeScopeGuard f).destruct s).1 = (f s).1) ∧
    (((makeScopeGuard f).dismiss.destruct s).1 = s) ∧
    (g.dismiss.dismiss = g.dismiss) ∧
    ((g.destruct s).2 = none) ∧
    ((f s).2 = some e → ((makeScopeGuard f).destruct s).2 = none) := by
  refine ⟨rfl, rfl, rfl, ?_, fun _ => rfl⟩
  unfold ScopeGuardImpl.destruct
  by_cases h : g.m_dismissed <;> simp [h, tryCatchDiscard]

/-- Witness for C1: at a concrete counting state and an action that both
increments the counter and raises a failure, destruction yields counter 1
(ran exactly once) and propagates nothing; after dismiss the counter
stays 0. -/
theorem scopeGuard_runs_once_witness :
    ((((makeScopeGuard (fun n : Nat => (n + 1, some 0))).destruct 0).1 = 1) ∧
     (((makeScopeGuard (fun n : Nat => (n + 1, some (0 : Nat)))).dismiss.destruct 0).1 = 0) ∧
     (((makeScopeGuard (fun n : Nat => (n + 1, some (0 : Nat)))).destruct 0).2 = none)) := by
  have h := scopeGuard_runs_once_dismiss_idempotent_no_propagation
    (fun n : Nat => (n + 1, some 0)) 0
    (makeScopeGuard (fun n : Nat => (n + 1, some 0))) 0
  exact ⟨h.1, h.2.1, h.2.2.2.2 rfl⟩


/-- C2: whenever one of the four factory calls of `Pipeline::setup`
fails (playbin, glsinkbin, subtitle appsink, or qmlglsink), `setup`
returns `false` and every element constructed before the failure that
was not adopted by a parent has been released: the heap holds no
allocated element at all, and no release was a double free. -/
theorem pipeline_setup_failure_releases_everything
    (a b c d : Bool) (url : String) (sub : Nat)
    (hfail : (a && b && c && d) = false) :
    (Pipeline.setup ⟨a, b, c, d⟩ url sub Pipeline.mkInit).1 = false ∧
    (Pipeline.setup ⟨a, b, c, d⟩ url sub Pipeline.mkInit).2.1.heap.rc = [] ∧
    (Pipeline.setup ⟨a, b, c, d⟩ url sub Pipeline.mkInit).2.1.heap.doubleFree = false := by
  cases a <;> cases b <;> cases c <;> cases d <;>
    first
      | exact absurd hfail (by decide)
      | exact ⟨rfl, rfl, rfl⟩

/-- Witness for C2: with the glsinkbin factory missing, setup fails and
the heap is left empty. -/
theorem pipeline_setup_failure_witness :
    (Pipeline.setup ⟨true, false, true, true⟩ "file:///tmp/video.mp4" 0 Pipeline.mkInit).1 = false ∧
    (Pipeline.setup ⟨true, false, true, true⟩ "file:///tmp/video.mp4" 0 Pipeline.mkInit).2.1.heap.rc = [] ∧
    (Pipeline.setup ⟨true, false, true, true⟩ "file:///tmp/video.mp4" 0 Pipeline.mkInit).2.1.heap.doubleFree = false :=
  pipeline_setup_failure_releases_everything true false true true "file:///tmp/video.mp4" 0 (by decide)

/-- C3: `Pipeline::~Pipeline` on a pipeline whose handles exist performs
exactly, and in this order: request the NULL (stopped) state, detach the
widget (rendering-surface reference) from the qmlglsink, release the
playbin.  The resulting state carries no widget reference, so the
surface reference is not attached when the pipeline is released; and in
`main`'s scope-exit sequence the whole destructor — including the detach
— runs strictly before the QML engine (the owner of the UI surface) is
destroyed. -/
theorem pipeline_teardown_order (st : PipelineState) (pb qml : ElemId)
    (hpb : st.m_playbin = some pb) (hq : st.m_qmlglsink = some qml) :
    (Pipeline.destruct st).2
      = [GstOp.setStateNull pb, GstOp.setWidget qml none, GstOp.unref pb] ∧
    (Pipeline.destruct st).1.widgetProp = none ∧
    scopeExitTrace st
      = [MainEvent.pipelineOp (GstOp.setStateNull pb),
         MainEvent.pipelineOp (GstOp.setWidget qml none),
         MainEvent.pipelineOp (GstOp.unref pb),
         MainEvent.qmlEngineDestroyed, MainEvent.sighandlerDestroyed,
         MainEvent.gstDeinitCalled] := by
  refine ⟨?_, ?_, ?_⟩ <;> simp [Pipeline.destruct, scopeExitTrace, hpb, hq]

/-- Witness for C3: the state produced by a successful setup has
playbin 0 and qmlglsink 3, and its destructor trace is exactly
stop-detach-release. -/
theorem pipeline_teardown_order_witness :
    (Pipeline.destruct
        (Pipeline.setup ⟨true, true, true, true⟩ "file:///tmp/video.mp4" 0 Pipeline.mkInit).2.1).2
      = [GstOp.setStateNull 0, GstOp.setWidget 3 none, GstOp.unref 0] ∧
    (Pipeline.destruct
        (Pipeline.setup ⟨true, true, true, true⟩ "file:///tmp/video.mp4" 0 Pipeline.mkInit).2.1).1.widgetProp = none :=
  ⟨(pipeline_teardown_order
      (Pipeline.setup ⟨true, true, true, true⟩ "file:///tmp/video.mp4" 0 Pipeline.mkInit).2.1
      0 3 rfl rfl).1,
   (pipeline_teardown_order
      (Pipeline.setup ⟨true, true, true, true⟩ "file:///tmp/video.mp4" 0 Pipeline.mkInit).2.1
      0 3 rfl rfl).2.1⟩

/-- C4: over the whole lifecycle (setup, and teardown when setup
succeeded), in every factory environment: an element adopted by a parent
container is never the target of a controller-issued `gst_object_unref`,
no element is controller-released twice, and no release — including the
cascaded ones done by the containers — is a double free. -/
theorem pipeline_adopted_never_independently_released
    (a b c d : Bool) (url : String) (sub : Nat) :
    ((adoptedChildren (Pipeline.lifecycle ⟨a, b, c, d⟩ url sub).2).all
        (fun e => !((controllerUnrefs (Pipeline.lifecycle ⟨a, b, c, d⟩ url sub).2).contains e))
      = true) ∧
    (controllerUnrefs (Pipeline.lifecycle ⟨a, b, c, d⟩ url sub).2).Nodup ∧
    (Pipeline.lifecycle ⟨a, b, c, d⟩ url sub).1.heap.doubleFree = false := by
  cases a <;> cases b <;> cases c <;> cases d <;>
    exact ⟨rfl, of_decide_eq_true rfl, rfl⟩

/-- C9: `Pipeline::start` before a successful `setup` hits the
precondition asserts (modelled as `none`): on a fresh pipeline, on any
pipeline whose setup failed, and in general whenever the playbin or the
qmlglsink handle is null.  After a successful setup, `start` returns a
result and that result is `true` exactly when the external PLAYING state
transition succeeds — the state-transition verdict is its only failure
mode. -/
theorem pipeline_start_requires_successful_prepare
    (a b c d : Bool) (url : String) (sub w : Nat) (ok : Bool) (st : PipelineState) :
    (Pipeline.start ok w Pipeline.mkInit = none) ∧
    ((a && b && c && d) = false →
      Pipeline.start ok w (Pipeline.setup ⟨a, b, c, d⟩ url sub Pipeline.mkInit).2.1 = none) ∧
    (st.m_playbin = none ∨ st.m_qmlglsink = none → Pipeline.start ok w st = none) ∧
    ((Pipeline.start ok w (Pipeline.setup ⟨true, true, true, true⟩ url sub Pipeline.mkInit).2.1).map
        (fun r => r.1) = some ok) := by
  refine ⟨rfl, ?_, ?_, ?_⟩
  · intro hfail
    cases a <;> cases b <;> cases c <;> cases d <;>
      first
        | exact absurd hfail (by decide)
        | rfl
  · intro h
    rcases h with h | h <;>
      cases hpb : st.m_playbin <;> cases hq : st.m_qmlglsink <;>
        simp_all [Pipeline.start]
  · cases ok <;> rfl

/-- Witness for C9: start on a failed-setup pipeline traps; start after
a successful setup succeeds when the state change does. -/
theorem pipeline_start_witness :
    (Pipeline.start true 5 (Pipeline.setup ⟨true, false, true, true⟩ "u" 0 Pipeline.mkInit).2.1 = none) ∧
    (Pipeline.start true 5 Pipeline.mkInit = none) ∧
    ((Pipeline.start true 5 (Pipeline.setup ⟨true, true, true, true⟩ "u" 0 Pipeline.mkInit).2.1).map
        (fun r => r.1) = some true) := by
  have h := pipeline_start_requires_successful_prepare true false true true "u" 0 5 true Pipeline.mkInit
  exact ⟨h.2.1 (by decide), h.1, h.2.2.2⟩

/-- C10: destroying a pipeline that was never set up, or whose setup
failed, is a no-op: the destructor returns immediately on a null playbin
(the setup failure guard nulls it), and it emits a widget detach only
when the qmlglsink exists. -/
theorem pipeline_destruct_safe_in_all_states
    (a b c d : Bool) (url : String) (sub : Nat) (st : PipelineState) :
    (Pipeline.destruct Pipeline.mkInit = (Pipeline.mkInit, [])) ∧
    ((a && b && c && d) = false →
      (Pipeline.setup ⟨a, b, c, d⟩ url sub Pipeline.mkInit).2.1.m_playbin = none ∧
      Pipeline.destruct (Pipeline.setup ⟨a, b, c, d⟩ url sub Pipeline.mkInit).2.1
        = ((Pipeline.setup ⟨a, b, c, d⟩ url sub Pipeline.mkInit).2.1, [])) ∧
    (st.m_playbin = none → Pipeline.destruct st = (st, [])) ∧
    (st.m_qmlglsink = none →
      ∀ q v, GstOp.setWidget q v ∉ (Pipeline.destruct st).2) := by
  refine ⟨rfl, ?_, ?_, ?_⟩
  · intro hfail
    cases a <;> cases b <;> cases c <;> cases d <;>
      first
        | exact absurd hfail (by decide)
        | exact ⟨rfl, rfl⟩
  · intro h
    simp [Pipeline.destruct, h]
  · intro h q v
    cases hpb : st.m_playbin <;> simp [Pipeline.destruct, hpb, h]

/-- Witness for C10: after a setup whose qmlglsink factory call failed,
the playbin handle is null and destruction does nothing. -/
theorem pipeline_destruct_safe_witness :
    (Pipeline.setup ⟨true, true, true, false⟩ "u" 0 Pipeline.mkInit).2.1.m_playbin = none ∧
    Pipeline.destruct (Pipeline.setup ⟨true, true, true, false⟩ "u" 0 Pipeline.mkInit).2.1
      = ((Pipeline.setup ⟨true, true, true, false⟩ "u" 0 Pipeline.mkInit).2.1, []) ∧
    Pipeline.destruct Pipeline.mkInit = (Pipeline.mkInit, []) := by
  have h := pipeline_destruct_safe_in_all_states true true true false "u" 0 Pipeline.mkInit
  exact ⟨(h.2.1 (by decide)).1, (h.2.1 (by decide)).2, h.1⟩

/-! ### Signal-bridge helper lemmas -/

/-- The restore loop attempts exactly one `sigaction` write per recorded
entry, in map order. -/
theorem restoreLoop_trace (l : List (Int × Sigaction)) (d : Int → Sigaction)
    (w : List (Int × Sigaction)) : (restoreLoop l d w).2 = w ++ l := by
  induction l generalizing d w with
  | nil => simp [restoreLoop]
  | cons p rest ih =>
    cases p with
    | mk s old => simp [restoreLoop, ih]

/-- If every recorded entry holds the original disposition of its key,
and the current table agrees with the original off the recorded keys,
then after the restore loop the whole table equals the original. -/
theorem restoreLoop_restores (dOrig : Int → Sigaction) (l : List (Int × Sigaction))
    (g : Int → Sigaction) (w : List (Int × Sigaction))
    (hv : ∀ p ∈ l, p.2 = dOrig p.1)
    (hg : ∀ s, s ∉ l.map Prod.fst → g s = dOrig s) :
    ∀ s, (restoreLoop l g w).1 s = dOrig s := by
  induction l generalizing g w with
  | nil => intro s; exact hg s (by simp)
  | cons p rest ih =>
    cases p with
    | mk k v =>
      intro s
      simp only [restoreLoop]
      apply ih
      · intro q hq
        exact hv q (List.mem_cons_of_mem _ hq)
      intro t ht
      by_cases hkt : t = k
      · subst hkt
        rw [Function.update_same]
        exact hv (t, v) (List.mem_cons_self _ _)
      · rw [Function.update_noteq hkt]
        refine hg t ?_
        simp only [List.map_cons, List.mem_cons]
        rintro (h | h)
        · exact hkt h
        · exact ht h

theorem mapInsert_mem (k : Int) (v : Sigaction) (l : List (Int × Sigaction))
    (p : Int × Sigaction) (hp : p ∈ mapInsert k v l) : p = (k, v) ∨ p ∈ l := by
  induction l with
  | nil => simpa [mapInsert] using hp
  | cons q rest ih =>
    cases q with
    | mk k₁ v₁ =>
      simp only [mapInsert] at hp
      split_ifs at hp with h₁ h₂
      · simpa using hp
      · rcases (by simpa using hp : p = (k, v) ∨ p ∈ rest) with h | h
        · exact Or.inl h
        · exact Or.inr (List.mem_cons_of_mem _ h)
      · rcases (by simpa using hp : p = (k₁, v₁) ∨ p ∈ mapInsert k v rest) with h | h
        · exact Or.inr (h ▸ List.mem_cons_self _ _)
        · rcases ih h with h' | h'
          · exact Or.inl h'
          · exact Or.inr (List.mem_cons_of_mem _ h')

/-- The keys after a map insertion are the inserted key plus the old keys. -/
theorem mapInsert_keys_iff (k : Int) (v : Sigaction) (l : List (Int × Sigaction))
    (t : Int) :
    t ∈ (mapInsert k v l).map Prod.fst ↔ (t = k ∨ t ∈ l.map Prod.fst) := by
  induction l with
  | nil => simp [mapInsert]
  | cons q rest ih =>
    cases q with
    | mk k₁ v₁ =>
      simp only [mapInsert]
      split_ifs with h₁ h₂
      · simp only [List.map_cons, List.mem_cons]
      · subst h₂
        simp only [List.map_cons, List.mem_cons]
        tauto
      · simp only [List.map_cons, List.mem_cons]
        rw [ih]
        tauto

/-- Invariants carried through the setup loop: every recorded entry
holds the original disposition of its key, and the live table equals the
original off the recorded keys.  The signals still to process must be
distinct and not yet recorded. -/
theorem setupLoop_inv (env : SigEnv) (dOrig : Int → Sigaction) :
    ∀ (ss : List Int) (st : SigState) (w : List (Int × Sigaction)),
    (∀ p ∈ st.m_oldSigactions, p.2 = dOrig p.1) →
    (∀ s, s ∉ st.m_oldSigactions.map Prod.fst → st.dispositions s = dOrig s) →
    (∀ x ∈ ss, x ∉ st.m_oldSigactions.map Prod.fst) →
    ss.Nodup →
    (∀ p ∈ (setupLoop env ss st w).2.1.m_oldSigactions, p.2 = dOrig p.1) ∧
    (∀ s, s ∉ (setupLoop env ss st w).2.1.m_oldSigactions.map Prod.fst →
      (setupLoop env ss st w).2.1.dispositions s = dOrig s) := by
  intro ss
  induction ss with
  | nil => intro st w h1 h2 _ _; exact ⟨h1, h2⟩
  | cons s rest ih =>
    intro st w h1 h2 hdisj hnd
    have hs : s ∉ st.m_oldSigactions.map Prod.fst := hdisj s (List.mem_cons_self _ _)
    have hds : st.dispositions s = dOrig s := h2 s hs
    have hrest : rest.Nodup := (List.nodup_cons.mp hnd).2
    have hsrest : s ∉ rest := (List.nodup_cons.mp hnd).1
    simp only [setupLoop]
    split_ifs with hq hign hinst
    · exact ⟨h1, h2⟩
    · exact ⟨h1, h2⟩
    · -- install branch: record the old disposition and override with the bridge
      apply ih
      · intro p hp
        rcases mapInsert_mem _ _ _ p hp with h | h
        · rw [h]; exact hds
        · exact h1 p h
      · intro t ht
        rw [mapInsert_keys_iff] at ht
        push_neg at ht
        show Function.update st.dispositions s bridgeSigaction t = dOrig t
        rw [Function.update_noteq ht.1]
        exact h2 t ht.2
      · intro x hx
        rw [mapInsert_keys_iff]
        push_neg
        exact ⟨fun hxs => hsrest (hxs ▸ hx), hdisj x (List.mem_cons_of_mem _ hx)⟩
      · exact hrest
    · -- ignored branch: record the old disposition, leave the table alone
      apply ih
      · intro p hp
        rcases mapInsert_mem _ _ _ p hp with h | h
        · rw [h]; exact hds
        · exact h1 p h
      · intro t ht
        rw [mapInsert_keys_iff] at ht
        push_neg at ht
        exact h2 t ht.2
      · intro x hx
        rw [mapInsert_keys_iff]
        push_neg
        exact ⟨fun hxs => hsrest (hxs ▸ hx), hdisj x (List.mem_cons_of_mem _ hx)⟩
      · exact hrest

/-- A signal whose live disposition handler is `SIG_IGN` is never
touched by the setup loop: its table entry is preserved and no install
write for it is added to the trace. -/
theorem setupLoop_preserves_ignored (env : SigEnv) (s₀ : Int) :
    ∀ (ss : List Int) (st : SigState) (w : List (Int × Sigaction)),
    (st.dispositions s₀).sa_handler = Handler.ign →
    ((setupLoop env ss st w).2.1.dispositions s₀ = st.dispositions s₀) ∧
    (∀ a, (s₀, a) ∈ (setupLoop env ss st w).2.2 → (s₀, a) ∈ w) := by
  intro ss
  induction ss with
  | nil => intro st w _; exact ⟨rfl, fun _ ha => ha⟩
  | cons s rest ih =>
    intro st w h
    simp only [setupLoop]
    split_ifs with hq hign hinst
    · exact ⟨rfl, fun _ ha => ha⟩
    · exact ⟨rfl, fun _ ha => ha⟩
    · -- install branch: the handled signal cannot be s₀
      have hss : s ≠ s₀ := by
        intro he
        exact hign (he ▸ h)
      have hupd : Function.update st.dispositions s bridgeSigaction s₀ = st.dispositions s₀ :=
        Function.update_noteq (fun he => hss he.symm) _ _
      have := ih { st with
          dispositions := Function.update st.dispositions s bridgeSigaction,
          m_oldSigactions := mapInsert s (st.dispositions s) st.m_oldSigactions }
        (w ++ [(s, bridgeSigaction)]) (by simpa [hupd] using h)
      refine ⟨by rw [this.1]; exact hupd, fun a ha => ?_⟩
      have hmem := this.2 a ha
      rcases List.mem_append.mp hmem with hmem | hmem
      · exact hmem
      · exact absurd (by simpa using hmem : (s₀, a) = (s, bridgeSigaction))
          (fun he => hss (congrArg Prod.fst he).symm)
    · -- ignored branch: the table is unchanged, nothing written
      exact ih { st with
          m_oldSigactions := mapInsert s (st.dispositions s) st.m_oldSigactions } w h

/-- Setup-level invariant: every recorded entry equals the original
disposition of its key, and the live table equals the original off the
recorded keys — whether setup succeeded or aborted anywhere. -/
theorem sighandler_setup_inv (env : SigEnv) (d : Int → Sigaction) :
    (∀ p ∈ (Sighandler.setup env (Sighandler.mkInit d)).2.1.m_oldSigactions, p.2 = d p.1) ∧
    (∀ s, s ∉ (Sighandler.setup env (Sighandler.mkInit d)).2.1.m_oldSigactions.map Prod.fst →
      (Sighandler.setup env (Sighandler.mkInit d)).2.1.dispositions s = d s) := by
  by_cases hp : env.pipeOk
  · have h := setupLoop_inv env d SignalsToHandle
      { dispositions := d, signalFd := env.writeFd,
        m_pipeFds := (env.readFd, env.writeFd), m_notifier := true,
        m_oldSigactions := [] } []
      (by intro p hp'; simp at hp')
      (fun _ _ => rfl)
      (by intro x _; simp)
      (by decide)
    constructor
    · simp only [Sighandler.setup, hp, if_true]
      exact h.1
    · simp only [Sighandler.setup, hp, if_true]
      exact h.2
  · constructor
    · intro p hp'
      simp only [Sighandler.setup, hp] at hp'
      simp [Sighandler.mkInit] at hp'
    · intro s _
      simp only [Sighandler.setup, hp, if_false]
      rfl

/-- After setup followed by the destructor, the teardown writes back
exactly the recorded map and the whole disposition table again equals
the original. -/
theorem sighandler_destruct_restores (env : SigEnv) (d : Int → Sigaction) :
    ((Sighandler.destruct (Sighandler.setup env (Sighandler.mkInit d)).2.1).2
      = (Sighandler.setup env (Sighandler.mkInit d)).2.1.m_oldSigactions) ∧
    (∀ s, (Sighandler.destruct (Sighandler.setup env (Sighandler.mkInit d)).2.1).1.dispositions s
      = d s) := by
  have hinv := sighandler_setup_inv env d
  constructor
  · show (restoreLoop (Sighandler.setup env (Sighandler.mkInit d)).2.1.m_oldSigactions
      (Sighandler.setup env (Sighandler.mkInit d)).2.1.dispositions []).2 = _
    rw [restoreLoop_trace]
    simp
  · intro s
    exact restoreLoop_restores d _ _ [] hinv.1 hinv.2 s

/-- A signal whose original disposition is ignored is not overridden by
setup: no install write names it and its table entry stays the original. -/
theorem sighandler_setup_preserves_ignored (env : SigEnv) (d : Int → Sigaction) (s : Int)
    (hign : (d s).sa_handler = Handler.ign) :
    ((Sighandler.setup env (Sighandler.mkInit d)).2.1.dispositions s = d s) ∧
    (∀ a, (s, a) ∉ (Sighandler.setup env (Sighandler.mkInit d)).2.2) := by
  by_cases hp : env.pipeOk
  · constructor
    · simp only [Sighandler.setup, hp, if_true]
      exact (setupLoop_preserves_ignored env s SignalsToHandle _ [] hign).1
    · intro a ha
      simp only [Sighandler.setup, hp, if_true] at ha
      have := (setupLoop_preserves_ignored env s SignalsToHandle _ [] hign).2 a ha
      simp at this
  · constructor
    · simp only [Sighandler.setup, hp, if_false]
      rfl
    · intro a ha
      simp only [Sighandler.setup, hp, if_false] at ha
      simp at ha

/-- C5 (amended): the Signal Bridge records the previous disposition of
every signal it successfully queried — including signals left ignored,
which it did not override — and on teardown writes back exactly the
recorded dispositions, each bit-for-bit equal to the original; hence
after teardown every signal's disposition equals its original value.
(The claim's stronger reading, that only overridden dispositions are
recorded and written back, is refuted by
`sighandler_records_nonoverridden_counterexample`.) -/
theorem sighandler_restores_recorded_bitforbit (env : SigEnv) (d : Int → Sigaction) :
    (∀ p ∈ (Sighandler.setup env (Sighandler.mkInit d)).2.1.m_oldSigactions, p.2 = d p.1) ∧
    ((Sighandler.destruct (Sighandler.setup env (Sighandler.mkInit d)).2.1).2
      = (Sighandler.setup env (Sighandler.mkInit d)).2.1.m_oldSigactions) ∧
    (∀ s, (Sighandler.destruct (Sighandler.setup env (Sighandler.mkInit d)).2.1).1.dispositions s
      = d s) :=
  ⟨(sighandler_setup_inv env d).1, (sighandler_destruct_restores env d).1,
   (sighandler_destruct_restores env d).2⟩

/-- A disposition table in which SIGINT is explicitly ignored and the
other signals are at their default. -/
def cexIgn : Sigaction := { sa_handler := Handler.ign, sa_mask := 0, sa_flags := 0 }

def cexDfl : Sigaction := { sa_handler := Handler.dfl, sa_mask := 0, sa_flags := 0 }

def cexDispositions (s : Int) : Sigaction := if s = SIGINT then cexIgn else cexDfl

/-- An environment in which every OS call of the signal bridge succeeds. -/
def cexSigEnv : SigEnv :=
  { pipeOk := true, readFd := 3, writeFd := 4,
    queryFail := fun _ => false, installFail := fun _ => false }

/-- Counterexample to C5 as stated: with SIGINT previously ignored,
setup installs its handler only for SIGTERM, SIGQUIT and SIGHUP (the
overrides), yet SIGINT's old disposition is also recorded and teardown
writes it back — a disposition the bridge never overrode is written
back, so the recorded set is strictly larger than the overridden set. -/
theorem sighandler_records_nonoverridden_counterexample :
    ((Sighandler.setup cexSigEnv (Sighandler.mkInit cexDispositions)).2.2.map Prod.fst
      = [SIGTERM, SIGQUIT, SIGHUP]) ∧
    (SIGINT ∉ (Sighandler.setup cexSigEnv (Sighandler.mkInit cexDispositions)).2.2.map Prod.fst) ∧
    ((SIGINT, cexIgn)
      ∈ (Sighandler.destruct (Sighandler.setup cexSigEnv (Sighandler.mkInit cexDispositions)).2.1).2) :=
  ⟨rfl, by decide, by decide⟩

/-- C6: for any of the four managed signals whose previous disposition
handler is the explicit ignore, setup performs no handler install for
it, and the signal's disposition — still the ignore one, bit-for-bit —
survives both setup and teardown. -/
theorem sighandler_leaves_ignored_signals (env : SigEnv) (d : Int → Sigaction) (s : Int)
    (hs : s ∈ SignalsToHandle) (hign : (d s).sa_handler = Handler.ign) :
    (∀ a, (s, a) ∉ (Sighandler.setup env (Sighandler.mkInit d)).2.2) ∧
    ((Sighandler.setup env (Sighandler.mkInit d)).2.1.dispositions s = d s) ∧
    (((Sighandler.setup env (Sighandler.mkInit d)).2.1.dispositions s).sa_handler
      = Handler.ign) ∧
    ((Sighandler.destruct (Sighandler.setup env (Sighandler.mkInit d)).2.1).1.dispositions s
      = d s) ∧
    (((Sighandler.destruct (Sighandler.setup env (Sighandler.mkInit d)).2.1).1.dispositions s).sa_handler
      = Handler.ign) := by
  have hset := sighandler_setup_preserves_ignored env d s hign
  have hrest := sighandler_destruct_restores env d
  exact ⟨hset.2, hset.1, by rw [hset.1]; exact hign,
         hrest.2 s, by rw [hrest.2 s]; exact hign⟩

/-- Witness for C6: with every signal previously ignored, SIGINT is one
of the managed signals, setup installs nothing for it, and it is still
ignored after setup and after teardown. -/
theorem sighandler_leaves_ignored_witness :
    (∀ a, (SIGINT, a) ∉ (Sighandler.setup cexSigEnv (Sighandler.mkInit (fun _ => cexIgn))).2.2) ∧
    ((Sighandler.setup cexSigEnv (Sighandler.mkInit (fun _ => cexIgn))).2.1.dispositions SIGINT
      = cexIgn) ∧
    ((Sighandler.destruct
        (Sighandler.setup cexSigEnv (Sighandler.mkInit (fun _ => cexIgn))).2.1).1.dispositions SIGINT
      = cexIgn) := by
  have h := sighandler_leaves_ignored_signals cexSigEnv (fun _ => cexIgn) SIGINT
    (by decide) rfl
  exact ⟨h.1, h.2.1, h.2.2.2.1⟩

/-- C7: the global signal target holds the `-1` "inactive" sentinel both
at program start and after the Signal Bridge destructor has run (which
resets it as its last step), and a signal delivered while it holds the
sentinel makes the raw handler do nothing at all: it writes no byte to
any descriptor. -/
theorem sighandler_sentinel_inactive (d : Int → Sigaction) (st : SigState) :
    ((Sighandler.mkInit d).signalFd = -1) ∧
    (sigHandler (Sighandler.mkInit d).signalFd = []) ∧
    ((Sighandler.destruct st).1.signalFd = -1) ∧
    (sigHandler (Sighandler.destruct st).1.signalFd = []) :=
  ⟨rfl, rfl, rfl, rfl⟩

/-- Every path through the post-validation part of `main` keeps the
normalized input URL it was handed. -/
theorem mainAfterUri_validatedUrl (env : MainEnv) (d : Int → Sigaction) (u : String)
    (ev : MainEvent) : (mainAfterUri env d u ev).validatedUrl = some u := by
  simp only [mainAfterUri]
  split_ifs <;> rfl

/-- C8: in the startup sequencer's validation step (once execution
reaches it): an input that the media library deems a valid URI is
accepted unchanged; an input that is not a valid URI but converts to a
file URI is replaced by that file URI and startup proceeds; an input
that is neither makes `main` return the non-zero exit code `-1`, and the
trace shows neither a QML load nor a window being shown — the process
exits before any UI. -/
theorem main_input_validation (env : MainEnv) (d : Int → Sigaction)
    (h1 : env.gstInitOk = true) (h2 : env.parseOk = true)
    (h3 : env.helpRequested = false) (h4 : env.inputSet = true) :
    (env.gstUriIsValid env.input = true →
      (mainSeq env d).validatedUrl = some env.input) ∧
    (∀ u, env.gstUriIsValid env.input = false →
      env.gstFilenameToUri env.input = some u →
      (mainSeq env d).validatedUrl = some u) ∧
    (env.gstUriIsValid env.input = false →
      env.gstFilenameToUri env.input = none →
      (mainSeq env d).exitCode = -1 ∧
      (mainSeq env d).exitCode ≠ 0 ∧
      (mainSeq env d).validatedUrl = none ∧
      (MainEvent.qmlLoaded ∉ (mainSeq env d).trace) ∧
      (∀ fs, MainEvent.windowShown fs ∉ (mainSeq env d).trace)) := by
  refine ⟨?_, ?_, ?_⟩
  · intro hv
    simp [mainSeq, h1, h2, h3, h4, hv, mainAfterUri_validatedUrl env d env.input]
  · intro u hv hc
    simp [mainSeq, h1, h2, h3, h4, hv, hc, mainAfterUri_validatedUrl env d u]
  · intro hv hc
    simp [mainSeq, h1, h2, h3, h4, hv, hc]

/-- A fully successful environment around the validation step, with the
spec-modelled URI oracles. -/
def witMainEnv : MainEnv :=
  { gstInitOk := true, parseOk := true, helpRequested := false, inputSet := true,
    input := "http://example.com/v.mp4", fullscreen := false,
    gstUriIsValid := exUriIsValid, gstFilenameToUri := exFilenameToUri,
    factory := ⟨true, true, true, true⟩, qmlLoadOk := true,
    windowPtr := 1, videoItemFound := true, videoItemPtr := 2,
    sigEnv := cexSigEnv, appExecCode := 0 }

/-- Witness for C8, on the spec's three example inputs: the URI
`http://example.com/v.mp4` is accepted unchanged; the path
`/tmp/video.mp4` is converted to `file:///tmp/video.mp4`; the
unconvertible input `video.mp4` exits with `-1` before any UI is
shown. -/
theorem main_input_validation_witness :
    ((mainSeq witMainEnv cexDispositions).validatedUrl = some "http://example.com/v.mp4") ∧
    ((mainSeq { witMainEnv with input := "/tmp/video.mp4" } cexDispositions).validatedUrl
      = some "file:///tmp/video.mp4") ∧
    ((mainSeq { witMainEnv with input := "video.mp4" } cexDispositions).exitCode = -1) ∧
    (∀ fs, MainEvent.windowShown fs
      ∉ (mainSeq { witMainEnv with input := "video.mp4" } cexDispositions).trace) := by
  have hA := (main_input_validation witMainEnv cexDispositions rfl rfl rfl rfl).1 (by decide)
  have hB := (main_input_validation { witMainEnv with input := "/tmp/video.mp4" }
    cexDispositions rfl rfl rfl rfl).2.1 "file:///tmp/video.mp4" (by decide) (by decide)
  have hC := (main_input_validation { witMainEnv with input := "video.mp4" }
    cexDispositions rfl rfl rfl rfl).2.2 (by decide) (by decide)
  exact ⟨hA, hB, hC.1, hC.2.2.2.2⟩
